import Mathlib

/-
Shallow embedding of src/main/hello_world_main.c: a FreeRTOS producer /
consumer / supervisor system with a bounded queue, heartbeat registry and
an escalating recovery ladder.  Ticks are modelled at a 1000 Hz tick rate,
so one tick is one millisecond and pdMS_TO_TICKS is the identity.
TickType_t subtraction (now - hb) on the 32-bit unsigned tick counter is
modelled by tickSub.  Heap telemetry (xPortGetFreeHeapSize,
xPortGetMinimumEverFreeHeapSize) and the stack watermark are environment
inputs passed to each loop iteration.  PRINTF lines and other externally
visible actions are modelled as events emitted by each iteration.
-/

namespace HelloWorldMain

/-- Configuration constants from the top of hello_world_main.c. -/
def QUEUE_LEN : Nat := 10

def GEN_PERIOD_MS : Nat := 150

def RX_TIMEOUT_MS : Nat := 1000

def SUP_PERIOD_MS : Nat := 1500

/-- Number of consecutive timeouts for the light warning. -/
def RX_WARN_THRESHOLD : Nat := 2

/-- Number of consecutive timeouts for the soft local cleanup. -/
def RX_RECOVER_SOFT : Nat := 3

/-- Number of consecutive timeouts for the queue reset. -/
def RX_RECOVER_RESET_Q : Nat := 4

/-- Number of consecutive timeouts at which the receiver terminates. -/
def RX_FAIL_THRESHOLD : Nat := 5

/-- pdMS_TO_TICKS with the tick rate modelled at 1000 Hz (1 tick = 1 ms). -/
def pdMS_TO_TICKS (ms : Nat) : Nat := ms

/-- STALL_TICKS(ms) macro: pdMS_TO_TICKS(ms). -/
def STALL_TICKS (ms : Nat) : Nat := pdMS_TO_TICKS ms

/-- Unsigned 32-bit TickType_t subtraction now - hb, with wraparound. -/
def tickSub (a b : Nat) : Nat := (a + 2 ^ 32 - b) % 2 ^ 32

/-- The bounded FIFO queue created by xQueueCreate(QUEUE_LEN, sizeof(int)). -/
structure Queue where
  items : List Int
  cap : Nat
deriving Repr, DecidableEq

/-- xQueueSend with zero block time: enqueue at the back if there is room,
returning the new queue and pdTRUE; otherwise leave the queue unchanged and
return pdFALSE. -/
def xQueueSend (q : Queue) (v : Int) : Queue × Bool :=
  if q.items.length < q.cap then ({ q with items := q.items ++ [v] }, true)
  else (q, false)

/-- xQueueReceive with a timeout: return the oldest item if one is present,
otherwise report a timeout (none).  The block time itself is not modelled;
an empty queue at the iteration stands for a timed-out receive. -/
def xQueueReceive (q : Queue) : Queue × Option Int :=
  match q.items with
  | [] => (q, none)
  | v :: rest => ({ q with items := rest }, some v)

/-- xQueueReset: discard all buffered items. -/
def xQueueReset (q : Queue) : Queue := { q with items := [] }

/-- The global state of hello_world_main.c: the queue, the heartbeat
timestamps, the health flags and the task handles (modelled as presence
booleans: true when the handle variable is non-NULL). -/
structure SysState where
  queue : Queue
  hb_gen : Nat
  hb_rx : Nat
  hb_sup : Nat
  flag_gen_ok : Bool
  flag_rx_ok : Bool
  task_gen : Bool
  task_rx : Bool
deriving Repr, DecidableEq

/-- Observable events of one loop iteration: PRINTF lines that report an
action, watchdog check-ins, task recreations and the device restart. -/
inductive Ev where
  | genSent (v : Int)
  | genDropped (v : Int)
  | genLowStack
  | rxTransmit (v : Int)
  | rxAllocFail
  | rxWarn
  | rxSoftClean
  | rxQueueReset
  | rxTerminate
  | rxLowMem
  | supStatus
  | genDeleted
  | genRecreated
  | rxDeleted
  | rxRecreated
  | deviceRestart
  | wdtCheckIn
deriving Repr, DecidableEq

/-- Result of one iteration of the task_generator loop. -/
structure GenResult where
  state : SysState
  value : Int
  sent : Bool
  events : List Ev
deriving Repr, DecidableEq

/-- One iteration of the task_generator for-loop (lines 79-100): try a
non-blocking send of the current value; on success stamp the heartbeat with
the current tick t and set the health flag; on failure drop the value; in
both cases advance the counter; then the stack watermark check and the
watchdog reset. -/
def task_generator_iter (t : Nat) (watermark : Nat) (value : Int)
    (s : SysState) : GenResult :=
  let sendRes := xQueueSend s.queue value
  let stackEvts : List Ev := if watermark < 100 then [Ev.genLowStack] else []
  if sendRes.2 then
    { state := { s with queue := sendRes.1, hb_gen := t, flag_gen_ok := true }
      value := value + 1
      sent := true
      events := [Ev.genSent value] ++ stackEvts ++ [Ev.wdtCheckIn] }
  else
    { state := { s with queue := sendRes.1 }
      value := value + 1
      sent := false
      events := [Ev.genDropped value] ++ stackEvts ++ [Ev.wdtCheckIn] }

/-- Result of running several generator iterations. -/
structure GenRunResult where
  state : SysState
  value : Int
  sents : List Bool
  events : List Ev
deriving Repr, DecidableEq

/-- Run one generator iteration per entry of ts (the tick at that
iteration), threading the value counter and the state. -/
def task_generator_run (ts : List Nat) (watermark : Nat) (value : Int)
    (s : SysState) : GenRunResult :=
  match ts with
  | [] => { state := s, value := value, sents := [], events := [] }
  | t :: rest =>
      let r := task_generator_iter t watermark value s
      let r2 := task_generator_run rest watermark r.value r.state
      { state := r2.state, value := r2.value, sents := r.sent :: r2.sents
        events := r.events ++ r2.events }

/-- Result of one iteration of the task_receiver loop. -/
structure RxResult where
  state : SysState
  timeouts : Nat
  terminated : Bool
  events : List Ev
deriving Repr, DecidableEq

/-- The tail of a non-terminating receiver iteration (lines 153-163): the
heap telemetry print when free heap is below 20 KiB, then the watchdog
reset (the 50 ms delay has no observable effect). -/
def rxIterTail (free_heap : Nat) : List Ev :=
  (if free_heap < 20 * 1024 then [Ev.rxLowMem] else []) ++ [Ev.wdtCheckIn]

/-- One iteration of the task_receiver for-loop (lines 111-165).  On a
successful receive: zero the timeout counter, stamp the heartbeat, set the
health flag, then malloc a scratch cell — on allocation failure set the
health flag false and break (terminate) at once; otherwise transmit and
free.  On a timeout: increment the counter and apply the escalation ladder
(warn at 2, soft cleanup at 3, queue reset at 4, terminate at >= 5).  The
break paths skip the heap telemetry and the watchdog reset; vTaskDelete
(NULL) does not touch the g_task_rx handle variable. -/
def task_receiver_iter (t : Nat) (free_heap : Nat) (allocOk : Bool)
    (timeouts : Nat) (s : SysState) : RxResult :=
  let recvRes := xQueueReceive s.queue
  match recvRes.2 with
  | some v =>
      let s1 := { s with queue := recvRes.1, hb_rx := t, flag_rx_ok := true }
      if allocOk then
        { state := s1, timeouts := 0, terminated := false
          events := [Ev.rxTransmit v] ++ rxIterTail free_heap }
      else
        { state := { s1 with flag_rx_ok := false }, timeouts := 0
          terminated := true, events := [Ev.rxAllocFail] }
  | none =>
      let n := timeouts + 1
      let s1 := { s with queue := recvRes.1 }
      if n = RX_WARN_THRESHOLD then
        { state := s1, timeouts := n, terminated := false
          events := [Ev.rxWarn] ++ rxIterTail free_heap }
      else if n = RX_RECOVER_SOFT then
        { state := s1, timeouts := n, terminated := false
          events := [Ev.rxSoftClean] ++ rxIterTail free_heap }
      else if n = RX_RECOVER_RESET_Q then
        { state := { s1 with queue := xQueueReset recvRes.1 }, timeouts := n
          terminated := false
          events := [Ev.rxQueueReset] ++ rxIterTail free_heap }
      else if n ≥ RX_FAIL_THRESHOLD then
        { state := { s1 with flag_rx_ok := false }, timeouts := n
          terminated := true, events := [Ev.rxTerminate] }
      else
        { state := s1, timeouts := n, terminated := false
          events := rxIterTail free_heap }

/-- Run one receiver iteration per entry of inputs (the tick, the free heap
and the malloc outcome at that iteration), stopping as soon as an
iteration terminates (break out of the for-loop). -/
def task_receiver_run (inputs : List (Nat × Nat × Bool)) (timeouts : Nat)
    (s : SysState) : RxResult :=
  match inputs with
  | [] => { state := s, timeouts := timeouts, terminated := false, events := [] }
  | (t, fh, a) :: rest =>
      let r := task_receiver_iter t fh a timeouts s
      if r.terminated then r
      else
        let r2 := task_receiver_run rest r.timeouts r.state
        { state := r2.state, timeouts := r2.timeouts
          terminated := r2.terminated, events := r.events ++ r2.events }

/-- Whether an event is one of the four escalation-ladder actions of the
receiver (warning, soft cleanup, queue reset, termination). -/
def isLadderAction (e : Ev) : Bool :=
  match e with
  | Ev.rxWarn => true
  | Ev.rxSoftClean => true
  | Ev.rxQueueReset => true
  | Ev.rxTerminate => true
  | _ => false

/-- The subsequence of escalation-ladder actions of an event trace. -/
def ladderEvents (evts : List Ev) : List Ev := evts.filter isLadderAction

/-- Result of one iteration (tick) of the task_supervisor loop. -/
structure SupResult where
  state : SysState
  rx_restarts : Nat
  restarted : Bool
  events : List Ev
deriving Repr, DecidableEq

/-- One tick of the task_supervisor loop (lines 181-241).  now is the tick
count read at the top; t2 models the xTaskGetTickCount() re-read used to
stamp a fresh heartbeat right after a recreation; free_heap and min_heap
are the heap telemetry readings; rx_restarts is the supervisor-local
restart counter.  Order as in the source: stamp own heartbeat, status
print, producer staleness check, consumer absence-or-staleness check with
the restart heuristic nested inside it (esp_restart ends the tick), heap
print, the absolute minimum-heap floor check (esp_restart), watchdog
reset. -/
def task_supervisor_tick (now t2 free_heap min_heap : Nat)
    (rx_restarts : Nat) (s : SysState) : SupResult :=
  let s0 := { s with hb_sup := now }
  let evts0 : List Ev := [Ev.supStatus]
  let genStep :=
    if tickSub now s0.hb_gen > STALL_TICKS (3 * SUP_PERIOD_MS) then
      (({ s0 with task_gen := true, hb_gen := t2, flag_gen_ok := false } :
          SysState),
        (if s0.task_gen then [Ev.genDeleted] else []) ++ [Ev.genRecreated])
    else (s0, ([] : List Ev))
  let s1 := genStep.1
  let evts1 := genStep.2
  if s1.task_rx = false ∨ tickSub now s1.hb_rx > STALL_TICKS (5 * SUP_PERIOD_MS)
  then
    let delEvts : List Ev := if s1.task_rx then [Ev.rxDeleted] else []
    let s2 := { s1 with task_rx := true, hb_rx := t2, flag_rx_ok := false }
    let rr := rx_restarts + 1
    if rr ≥ 3 ∧ free_heap < 16 * 1024 then
      { state := s2, rx_restarts := rr, restarted := true
        events := evts0 ++ evts1 ++ delEvts ++ [Ev.rxRecreated, Ev.deviceRestart] }
    else if min_heap < 8 * 1024 then
      { state := s2, rx_restarts := rr, restarted := true
        events := evts0 ++ evts1 ++ delEvts ++ [Ev.rxRecreated, Ev.deviceRestart] }
    else
      { state := s2, rx_restarts := rr, restarted := false
        events := evts0 ++ evts1 ++ delEvts ++ [Ev.rxRecreated, Ev.wdtCheckIn] }
  else
    if min_heap < 8 * 1024 then
      { state := s1, rx_restarts := rx_restarts, restarted := true
        events := evts0 ++ evts1 ++ [Ev.deviceRestart] }
    else
      { state := s1, rx_restarts := rx_restarts, restarted := false
        events := evts0 ++ evts1 ++ [Ev.wdtCheckIn] }

/-- A generic concrete system state used by witnesses and counterexamples:
both tasks alive, fresh heartbeats, empty queue of capacity QUEUE_LEN. -/
def freshState : SysState :=
  { queue := { items := [], cap := QUEUE_LEN }
    hb_gen := 1000, hb_rx := 1000, hb_sup := 0
    flag_gen_ok := true, flag_rx_ok := true
    task_gen := true, task_rx := true }

/-- Boot-time state right after app_main created the queue and the tasks. -/
def bootState : SysState :=
  { queue := { items := [], cap := QUEUE_LEN }
    hb_gen := 0, hb_rx := 0, hb_sup := 0
    flag_gen_ok := false, flag_rx_ok := false
    task_gen := true, task_rx := true }

/-- State with a full queue (ten buffered values) and a boot-time producer
heartbeat, for the producer staleness counterexample. -/
def fullQueueState : SysState :=
  { queue := { items := [0, 1, 2, 3, 4, 5, 6, 7, 8, 9], cap := QUEUE_LEN }
    hb_gen := 0, hb_rx := 4600, hb_sup := 0
    flag_gen_ok := true, flag_rx_ok := true
    task_gen := true, task_rx := true }

/-- State whose consumer handle is absent, for witnesses of the
unconditional consumer recreation. -/
def rxAbsentState : SysState :=
  { queue := { items := [], cap := QUEUE_LEN }
    hb_gen := 9000, hb_rx := 9000, hb_sup := 0
    flag_gen_ok := true, flag_rx_ok := false
    task_gen := true, task_rx := false }

/-- State with one buffered message, for receive-success witnesses. -/
def oneItemState : SysState :=
  { queue := { items := [7], cap := QUEUE_LEN }
    hb_gen := 1000, hb_rx := 1000, hb_sup := 0
    flag_gen_ok := true, flag_rx_ok := true
    task_gen := true, task_rx := true }

/-- TickType_t subtraction agrees with Nat subtraction for monotone tick
values below 2^32. -/
theorem tickSub_eq_sub (a b : Nat) (hb : b ≤ a) (ha : a < 2 ^ 32) :
    tickSub a b = a - b := by
  unfold tickSub
  have h1 : a + 2 ^ 32 - b = (a - b) + 2 ^ 32 := by omega
  rw [h1, Nat.add_mod_right, Nat.mod_eq_of_lt (by omega)]

/-- The telemetry-and-watchdog tail of a receiver iteration contains no
escalation-ladder action. -/
theorem ladderEvents_rxIterTail (f : Nat) : ladderEvents (rxIterTail f) = [] := by
  unfold ladderEvents rxIterTail
  split <;> rfl

/-- ladderEvents distributes over concatenation of traces. -/
theorem ladderEvents_append (xs ys : List Ev) :
    ladderEvents (xs ++ ys) = ladderEvents xs ++ ladderEvents ys := by
  unfold ladderEvents
  exact List.filter_append xs ys

/-- Filter form of ladderEvents_rxIterTail, for use after unfolding
ladderEvents. -/
theorem filter_isLadderAction_rxIterTail (f : Nat) :
    List.filter isLadderAction (rxIterTail f) = [] := by
  unfold rxIterTail
  split <;> rfl

/-- A receiver iteration on an empty queue (a timed-out receive) increments
the consecutive-timeout counter by exactly one. -/
theorem rx_timeout_increments (u g : Nat) (b : Bool) (k : Nat)
    (s2 : SysState) (hq : s2.queue.items = []) :
    (task_receiver_iter u g b k s2).timeouts = k + 1 := by
  simp only [task_receiver_iter, xQueueReceive, hq]
  repeat' split
  all_goals rfl

/-- C5: for a Consumer instance with any prior consecutive-timeout count, a
successful receive (a nonempty queue at the iteration) sets the
consecutive-timeout counter to exactly 0. -/
theorem c5_success_resets_counter (t fh : Nat) (a : Bool) (k : Nat)
    (s : SysState) (v : Int) (rest : List Int)
    (hq : s.queue.items = v :: rest) :
    (task_receiver_iter t fh a k s).timeouts = 0 := by
  unfold task_receiver_iter xQueueReceive
  rw [hq]
  cases a <;> rfl

/-- Witness for c5_success_resets_counter: at the concrete one-item state
and prior count 4, the counter after a successful receive is 0. -/
theorem c5_success_resets_counter_witness :
    (task_receiver_iter 2000 30000 true 4 oneItemState).timeouts = 0 :=
  c5_success_resets_counter 2000 30000 true 4 oneItemState 7 [] rfl

/-- C7: at every supervisor tick at which minimum-ever free heap is below
8 KiB, a device restart is triggered, whatever the restart counter, the
free-heap reading and the recreation outcomes of that tick. -/
theorem c7_min_heap_floor_restart (now t2 free_heap min_heap rx_restarts : Nat)
    (s : SysState) (hmin : min_heap < 8 * 1024) :
    (task_supervisor_tick now t2 free_heap min_heap rx_restarts s).restarted = true := by
  simp only [task_supervisor_tick]
  repeat' split
  all_goals rfl

/-- Witness for c7_min_heap_floor_restart: with minimum-ever heap 4 KiB and
a healthy consumer, the tick still restarts the device. -/
theorem c7_min_heap_floor_restart_witness :
    (task_supervisor_tick 1500 1500 30000 4096 0 freshState).restarted = true :=
  c7_min_heap_floor_restart 1500 1500 30000 4096 0 freshState (by omega)

/-- C8: from boot (empty queue of capacity 10) with no consumer removing
items, the producer's first ten sends (values 0..9) all succeed, the
eleventh send (value 10) fails and the value is dropped, and the counter
still advances to 11 for the next cycle. -/
theorem c8_producer_fills_queue :
    (task_generator_run [0, 150, 300, 450, 600, 750, 900, 1050, 1200, 1350, 1500]
        4000 0 bootState).sents
      = [true, true, true, true, true, true, true, true, true, true, false]
    ∧ (task_generator_run [0, 150, 300, 450, 600, 750, 900, 1050, 1200, 1350, 1500]
        4000 0 bootState).state.queue.items
      = [0, 1, 2, 3, 4, 5, 6, 7, 8, 9]
    ∧ (task_generator_run [0, 150, 300, 450, 600, 750, 900, 1050, 1200, 1350, 1500]
        4000 0 bootState).value = 11
    ∧ Ev.genDropped 10 ∈ (task_generator_run
        [0, 150, 300, 450, 600, 750, 900, 1050, 1200, 1350, 1500]
        4000 0 bootState).events := by
  decide

/-- C9: if the scratch-cell allocation fails after a successful receive,
the receiver marks its health flag false and terminates at once: the
iteration emits only the allocation-failure report — no escalation-ladder
action and no watchdog check-in. -/
theorem c9_alloc_failure_terminates (t fh : Nat) (k : Nat) (s : SysState)
    (v : Int) (rest : List Int) (hq : s.queue.items = v :: rest) :
    (task_receiver_iter t fh false k s).terminated = true
    ∧ (task_receiver_iter t fh false k s).state.flag_rx_ok = false
    ∧ (task_receiver_iter t fh false k s).events = [Ev.rxAllocFail]
    ∧ Ev.wdtCheckIn ∉ (task_receiver_iter t fh false k s).events
    ∧ ladderEvents (task_receiver_iter t fh false k s).events = [] := by
  unfold task_receiver_iter xQueueReceive
  rw [hq]
  refine ⟨rfl, rfl, rfl, ?_, rfl⟩
  simp

/-- Witness for c9_alloc_failure_terminates: concrete allocation failure at
the one-item state with prior count 0. -/
theorem c9_alloc_failure_terminates_witness :
    (task_receiver_iter 2000 30000 false 0 oneItemState).terminated = true
    ∧ (task_receiver_iter 2000 30000 false 0 oneItemState).state.flag_rx_ok = false
    ∧ (task_receiver_iter 2000 30000 false 0 oneItemState).events = [Ev.rxAllocFail]
    ∧ Ev.wdtCheckIn ∉ (task_receiver_iter 2000 30000 false 0 oneItemState).events
    ∧ ladderEvents (task_receiver_iter 2000 30000 false 0 oneItemState).events = [] :=
  c9_alloc_failure_terminates 2000 30000 0 oneItemState 7 [] rfl

/-- C1: for a Consumer instance starting at consecutive-timeout count 0
with an empty queue, a run of five consecutive receive timeouts fires the
warning (count 2), the soft local cleanup (count 3), the queue reset
(count 4) and the termination with health flag false (count 5), each
exactly once, in exactly that ascending order and nothing else from the
ladder. -/
theorem c1_five_timeouts_ladder (t1 t2 t3 t4 t5 f1 f2 f3 f4 f5 : Nat)
    (a1 a2 a3 a4 a5 : Bool) (s : SysState) (hq : s.queue.items = []) :
    ladderEvents (task_receiver_run
        [(t1, f1, a1), (t2, f2, a2), (t3, f3, a3), (t4, f4, a4), (t5, f5, a5)]
        0 s).events = [Ev.rxWarn, Ev.rxSoftClean, Ev.rxQueueReset, Ev.rxTerminate]
    ∧ (task_receiver_run
        [(t1, f1, a1), (t2, f2, a2), (t3, f3, a3), (t4, f4, a4), (t5, f5, a5)]
        0 s).terminated = true
    ∧ (task_receiver_run
        [(t1, f1, a1), (t2, f2, a2), (t3, f3, a3), (t4, f4, a4), (t5, f5, a5)]
        0 s).state.flag_rx_ok = false := by
  obtain ⟨⟨items, cap⟩, hbg, hbr, hbs, fg, fr, tg, tr⟩ := s
  change items = [] at hq
  subst hq
  simp [task_receiver_run, task_receiver_iter, xQueueReceive, xQueueReset,
    RX_WARN_THRESHOLD, RX_RECOVER_SOFT, RX_RECOVER_RESET_Q,
    RX_FAIL_THRESHOLD, ladderEvents, isLadderAction,
    filter_isLadderAction_rxIterTail, List.filter_append]

/-- Witness for c1_five_timeouts_ladder at the concrete fresh state. -/
theorem c1_five_timeouts_ladder_witness :
    ladderEvents (task_receiver_run
        [(0, 30000, true), (1000, 30000, true), (2000, 30000, true),
          (3000, 30000, true), (4000, 30000, true)]
        0 freshState).events
      = [Ev.rxWarn, Ev.rxSoftClean, Ev.rxQueueReset, Ev.rxTerminate]
    ∧ (task_receiver_run
        [(0, 30000, true), (1000, 30000, true), (2000, 30000, true),
          (3000, 30000, true), (4000, 30000, true)]
        0 freshState).terminated = true
    ∧ (task_receiver_run
        [(0, 30000, true), (1000, 30000, true), (2000, 30000, true),
          (3000, 30000, true), (4000, 30000, true)]
        0 freshState).state.flag_rx_ok = false :=
  c1_five_timeouts_ladder 0 1000 2000 3000 4000 30000 30000 30000 30000 30000
    true true true true true freshState rfl

/-- C10: a fourth consecutive timeout resets the queue but leaves the
consecutive-timeout counter at 4; a timed-out iteration never yields
counter 0 (only a successful receive resets it); hence the next
consecutive timeout reaches the FAIL threshold and terminates the task
with its health flag false. -/
theorem c10_reset_keeps_counter (t u f g : Nat) (a b : Bool)
    (s : SysState) (hq : s.queue.items = []) :
    (task_receiver_iter t f a 3 s).timeouts = 4
    ∧ Ev.rxQueueReset ∈ (task_receiver_iter t f a 3 s).events
    ∧ (task_receiver_iter t f a 3 s).terminated = false
    ∧ (∀ (u2 g2 : Nat) (b2 : Bool) (k : Nat) (s2 : SysState),
        s2.queue.items = [] → (task_receiver_iter u2 g2 b2 k s2).timeouts ≠ 0)
    ∧ (task_receiver_iter u g b (task_receiver_iter t f a 3 s).timeouts
        (task_receiver_iter t f a 3 s).state).terminated = true
    ∧ (task_receiver_iter u g b (task_receiver_iter t f a 3 s).timeouts
        (task_receiver_iter t f a 3 s).state).state.flag_rx_ok = false := by
  refine ⟨?_, ?_, ?_, ?_, ?_, ?_⟩
  case _ =>
    exact rx_timeout_increments t f a 3 s hq
  case _ =>
    simp [task_receiver_iter, xQueueReceive, hq, RX_WARN_THRESHOLD,
      RX_RECOVER_SOFT, RX_RECOVER_RESET_Q, RX_FAIL_THRESHOLD, rxIterTail,
      apply_ite]
  case _ =>
    simp [task_receiver_iter, xQueueReceive, hq, RX_WARN_THRESHOLD,
      RX_RECOVER_SOFT, RX_RECOVER_RESET_Q, RX_FAIL_THRESHOLD]
  case _ =>
    intro u2 g2 b2 k s2 h2
    rw [rx_timeout_increments u2 g2 b2 k s2 h2]
    exact Nat.succ_ne_zero k
  case _ =>
    simp [task_receiver_iter, xQueueReceive, xQueueReset, hq,
      RX_WARN_THRESHOLD, RX_RECOVER_SOFT, RX_RECOVER_RESET_Q,
      RX_FAIL_THRESHOLD]
  case _ =>
    simp [task_receiver_iter, xQueueReceive, xQueueReset, hq,
      RX_WARN_THRESHOLD, RX_RECOVER_SOFT, RX_RECOVER_RESET_Q,
      RX_FAIL_THRESHOLD]

/-- Witness for c10_reset_keeps_counter at the concrete fresh state. -/
theorem c10_reset_keeps_counter_witness :
    (task_receiver_iter 0 30000 true 3 freshState).timeouts = 4
    ∧ Ev.rxQueueReset ∈ (task_receiver_iter 0 30000 true 3 freshState).events
    ∧ (task_receiver_iter 0 30000 true 3 freshState).terminated = false
    ∧ (∀ (u2 g2 : Nat) (b2 : Bool) (k : Nat) (s2 : SysState),
        s2.queue.items = [] → (task_receiver_iter u2 g2 b2 k s2).timeouts ≠ 0)
    ∧ (task_receiver_iter 1000 30000 true
        (task_receiver_iter 0 30000 true 3 freshState).timeouts
        (task_receiver_iter 0 30000 true 3 freshState).state).terminated = true
    ∧ (task_receiver_iter 1000 30000 true
        (task_receiver_iter 0 30000 true 3 freshState).timeouts
        (task_receiver_iter 0 30000 true 3 freshState).state).state.flag_rx_ok = false :=
  c10_reset_keeps_counter 0 1000 30000 30000 true true freshState rfl

/-- C2 counterexample: a supervisor tick at which the consumer-restart
counter is 3 and free heap is 12 KiB (below 16 KiB) but the consumer is
alive with a fresh heartbeat triggers no device restart: the heuristic is
only evaluated inside the consumer-recreation branch. -/
theorem c2_counterexample :
    3 ≥ 3 ∧ 12288 < 16 * 1024
    ∧ (task_supervisor_tick 1500 1500 12288 12288 3 freshState).restarted = false
    ∧ Ev.deviceRestart ∉ (task_supervisor_tick 1500 1500 12288 12288 3 freshState).events := by
  decide

/-- C2 (amended): the restart heuristic is evaluated only inside the
consumer-recreation branch; at a tick at which the consumer is recreated
(absent handle or stale heartbeat) and the post-increment restart counter
has reached 3, free heap below 16 KiB triggers a device restart, while
free heap at or above 16 KiB triggers none through this path (with the
minimum-heap floor also quiet, no restart occurs at all). -/
theorem c2_restart_heuristic (now t2 free_heap min_heap rx_restarts : Nat)
    (s : SysState)
    (hrec : s.task_rx = false ∨ tickSub now s.hb_rx > STALL_TICKS (5 * SUP_PERIOD_MS))
    (hcount : 3 ≤ rx_restarts + 1) :
    (free_heap < 16 * 1024 →
      (task_supervisor_tick now t2 free_heap min_heap rx_restarts s).restarted = true
      ∧ Ev.deviceRestart ∈ (task_supervisor_tick now t2 free_heap min_heap rx_restarts s).events)
    ∧ (16 * 1024 ≤ free_heap → 8 * 1024 ≤ min_heap →
      (task_supervisor_tick now t2 free_heap min_heap rx_restarts s).restarted = false) := by
  constructor
  · intro hf
    by_cases hg : tickSub now s.hb_gen > STALL_TICKS (3 * SUP_PERIOD_MS) <;>
      simp [task_supervisor_tick, hg, hrec, hcount, hf]
  · intro hf hm
    have hf2 : ¬ free_heap < 16 * 1024 := by omega
    have hm2 : ¬ min_heap < 8 * 1024 := by omega
    by_cases hg : tickSub now s.hb_gen > STALL_TICKS (3 * SUP_PERIOD_MS) <;>
      simp [task_supervisor_tick, hg, hrec, hf2, hm2]

/-- Witness for c2_restart_heuristic: at an absent-consumer tick with the
counter reaching 3, free heap 12 KiB restarts the device and free heap
20 KiB does not. -/
theorem c2_restart_heuristic_witness :
    ((task_supervisor_tick 9000 9000 12288 30000 2 rxAbsentState).restarted = true
      ∧ Ev.deviceRestart ∈ (task_supervisor_tick 9000 9000 12288 30000 2 rxAbsentState).events)
    ∧ (task_supervisor_tick 9000 9000 20000 30000 2 rxAbsentState).restarted = false :=
  ⟨(c2_restart_heuristic 9000 9000 12288 30000 2 rxAbsentState (Or.inl rfl)
      (by omega)).1 (by omega),
    (c2_restart_heuristic 9000 9000 20000 30000 2 rxAbsentState (Or.inl rfl)
      (by omega)).2 (by omega) (by omega)⟩

/-- C3 counterexample: the receiver iteration that self-terminates (fifth
consecutive timeout) leaves the stored task handle present — in the code
the break and vTaskDelete(NULL) never clear g_task_rx, so the handle does
not become absent. -/
theorem c3_counterexample :
    (task_receiver_iter 100 30000 true 4 freshState).terminated = true
    ∧ (task_receiver_iter 100 30000 true 4 freshState).state.task_rx = true := by
  decide

/-- C3 (amended): a receiver iteration never modifies the stored task
handle — in particular self-termination leaves it present, and the
supervisor then recovers via the staleness window; at any supervisor tick
at which the consumer handle is absent, a new consumer is created
unconditionally, regardless of heartbeat age. -/
theorem c3_absent_handle_recreation (t fh : Nat) (a : Bool) (k : Nat)
    (s : SysState) (now t2 free_heap min_heap rx_restarts : Nat)
    (s2 : SysState) (habs : s2.task_rx = false) :
    (task_receiver_iter t fh a k s).state.task_rx = s.task_rx
    ∧ (task_supervisor_tick now t2 free_heap min_heap rx_restarts s2).state.task_rx = true
    ∧ Ev.rxRecreated ∈ (task_supervisor_tick now t2 free_heap min_heap rx_restarts s2).events := by
  refine ⟨?_, ?_, ?_⟩
  · simp only [task_receiver_iter]
    repeat' split
    all_goals rfl
  · by_cases hg : tickSub now s2.hb_gen > STALL_TICKS (3 * SUP_PERIOD_MS)
    all_goals simp [task_supervisor_tick, hg, habs]
    all_goals repeat' split
    all_goals try simp
  · by_cases hg : tickSub now s2.hb_gen > STALL_TICKS (3 * SUP_PERIOD_MS)
    all_goals simp [task_supervisor_tick, hg, habs]
    all_goals repeat' split
    all_goals try simp

/-- Witness for c3_absent_handle_recreation at the concrete absent-consumer
state. -/
theorem c3_absent_handle_recreation_witness :
    (task_receiver_iter 0 30000 true 0 freshState).state.task_rx = freshState.task_rx
    ∧ (task_supervisor_tick 9000 9000 30000 30000 0 rxAbsentState).state.task_rx = true
    ∧ Ev.rxRecreated ∈ (task_supervisor_tick 9000 9000 30000 30000 0 rxAbsentState).events :=
  c3_absent_handle_recreation 0 30000 true 0 freshState 9000 9000 30000 30000 0
    rxAbsentState rfl

/-- C4 counterexample: with a full queue the producer keeps running (the
iteration completes, the value is dropped and the counter advances) but
its heartbeat is not stamped, so at a supervisor tick more than three
periods after the last successful send the producer staleness recreation
fires even though the task never stopped. -/
theorem c4_counterexample :
    (task_generator_iter 4600 4000 10 fullQueueState).sent = false
    ∧ (task_generator_iter 4600 4000 10 fullQueueState).value = 11
    ∧ (task_generator_iter 4600 4000 10 fullQueueState).state.hb_gen = 0
    ∧ Ev.genRecreated ∈ (task_supervisor_tick 4600 4600 30000 30000 0
        (task_generator_iter 4600 4000 10 fullQueueState).state).events := by
  decide

/-- C4 (amended): the producer stamps its heartbeat only on a successful
send — a failed send leaves the heartbeat unchanged, so the staleness
check can fire while the producer is still running; the check never fires
at a tick at which the producer heartbeat is at most three supervisor
periods old. -/
theorem c4_heartbeat_only_on_success (t w : Nat) (v : Int) (s : SysState)
    (now t2 free_heap min_heap rx_restarts : Nat) (s2 : SysState)
    (hfresh : ¬ tickSub now s2.hb_gen > STALL_TICKS (3 * SUP_PERIOD_MS)) :
    ((task_generator_iter t w v s).sent = false →
      (task_generator_iter t w v s).state.hb_gen = s.hb_gen)
    ∧ ((task_generator_iter t w v s).sent = true →
      (task_generator_iter t w v s).state.hb_gen = t)
    ∧ Ev.genRecreated ∉ (task_supervisor_tick now t2 free_heap min_heap rx_restarts s2).events := by
  refine ⟨?_, ?_, ?_⟩
  · simp only [task_generator_iter]
    split <;> simp
  · simp only [task_generator_iter]
    split <;> simp
  · simp [task_supervisor_tick, hfresh]
    repeat' split
    all_goals simp

/-- Witness for c4_heartbeat_only_on_success at the concrete fresh state
(heartbeat 500 ticks old at the tick). -/
theorem c4_heartbeat_only_on_success_witness :
    ((task_generator_iter 0 4000 0 freshState).sent = false →
      (task_generator_iter 0 4000 0 freshState).state.hb_gen = freshState.hb_gen)
    ∧ ((task_generator_iter 0 4000 0 freshState).sent = true →
      (task_generator_iter 0 4000 0 freshState).state.hb_gen = 0)
    ∧ Ev.genRecreated ∉ (task_supervisor_tick 1500 1500 30000 30000 0 freshState).events :=
  c4_heartbeat_only_on_success 0 4000 0 freshState 1500 1500 30000 30000 0
    freshState (by decide)

/-- C6: if at a supervisor tick the elapsed time since the producer
heartbeat exceeds three supervisor periods, the supervisor deletes the
existing producer handle (when present), creates a fresh producer, stamps
for it a heartbeat no older than the tick of the recreation and resets
the producer health flag to false. -/
theorem c6_producer_staleness_recreation
    (now t2 free_heap min_heap rx_restarts : Nat) (s : SysState)
    (hmono : s.hb_gen ≤ now) (hwrap : now < 2 ^ 32)
    (hstale : now - s.hb_gen > STALL_TICKS (3 * SUP_PERIOD_MS))
    (ht2 : now ≤ t2) :
    (s.task_gen = true →
      Ev.genDeleted ∈ (task_supervisor_tick now t2 free_heap min_heap rx_restarts s).events)
    ∧ Ev.genRecreated ∈ (task_supervisor_tick now t2 free_heap min_heap rx_restarts s).events
    ∧ (task_supervisor_tick now t2 free_heap min_heap rx_restarts s).state.task_gen = true
    ∧ (task_supervisor_tick now t2 free_heap min_heap rx_restarts s).state.hb_gen = t2
    ∧ now ≤ (task_supervisor_tick now t2 free_heap min_heap rx_restarts s).state.hb_gen
    ∧ (task_supervisor_tick now t2 free_heap min_heap rx_restarts s).state.flag_gen_ok = false := by
  have hcond : tickSub now s.hb_gen > STALL_TICKS (3 * SUP_PERIOD_MS) := by
    rw [tickSub_eq_sub now s.hb_gen hmono hwrap]
    exact hstale
  refine ⟨?_, ?_, ?_, ?_, ?_, ?_⟩
  · intro htg
    simp [task_supervisor_tick, hcond, htg]
    repeat' split
    all_goals try simp
  · simp [task_supervisor_tick, hcond]
    repeat' split
    all_goals try simp
  · simp [task_supervisor_tick, hcond]
    repeat' split
    all_goals try simp
  · simp [task_supervisor_tick, hcond]
    repeat' split
    all_goals try simp
  · simp [task_supervisor_tick, hcond]
    repeat' split
    all_goals try simp [ht2]
  · simp [task_supervisor_tick, hcond]
    repeat' split
    all_goals try simp

/-- Witness for c6_producer_staleness_recreation: boot-time heartbeat 0 at
tick 4600, which is more than 4500 ticks stale. -/
theorem c6_producer_staleness_recreation_witness :
    (bootState.task_gen = true →
      Ev.genDeleted ∈ (task_supervisor_tick 4600 4600 30000 30000 0 bootState).events)
    ∧ Ev.genRecreated ∈ (task_supervisor_tick 4600 4600 30000 30000 0 bootState).events
    ∧ (task_supervisor_tick 4600 4600 30000 30000 0 bootState).state.task_gen = true
    ∧ (task_supervisor_tick 4600 4600 30000 30000 0 bootState).state.hb_gen = 4600
    ∧ 4600 ≤ (task_supervisor_tick 4600 4600 30000 30000 0 bootState).state.hb_gen
    ∧ (task_supervisor_tick 4600 4600 30000 30000 0 bootState).state.flag_gen_ok = false :=
  c6_producer_staleness_recreation 4600 4600 30000 30000 0 bootState (by decide)
    (by decide) (by decide) (by decide)

end HelloWorldMain
